import Mathlib

/-!
Shallow embedding of `src/pages/conf.py` from the repository `awvwgk/foopss`.

The file is a Sphinx configuration module: a sequence of Python top-level
assignments binding names to strings, lists, dictionaries, booleans and
integers.  We model the Python value universe that occurs in the file, the
expression forms that occur (literals, name references, f-strings, dictionary
displays), and execution of the statement sequence as an environment fold.
The claims are then settled against the final environment produced by running
the embedded module.
-/

namespace Foopss

/-- Python values occurring in `conf.py`: strings, booleans, integers,
lists and dictionaries (modelled as ordered association lists, since Python
dictionaries preserve insertion order). -/
inductive PyValue where
  | str : String → PyValue
  | bool : Bool → PyValue
  | int : Int → PyValue
  | list : List PyValue → PyValue
  | dict : List (String × PyValue) → PyValue
deriving Repr

/-- One component of a Python f-string: a literal run of text or an
interpolated variable reference (`f"2022 {author}"` has one of each). -/
inductive FPart where
  | lit : String → FPart
  | var : String → FPart
deriving Repr

/-- A value position inside a dictionary display in `conf.py`: either a
literal or a reference to a previously bound name (only
`"extra_navbar": _extra_navbar` uses the latter). -/
inductive DVal where
  | lit : PyValue → DVal
  | name : String → DVal
deriving Repr

/-- The expression forms used on the right-hand sides of `conf.py`:
literals (strings, list displays of literals), name references, f-strings,
and dictionary displays. -/
inductive PyExpr where
  | lit : PyValue → PyExpr
  | name : String → PyExpr
  | fstr : List FPart → PyExpr
  | dictE : List (String × DVal) → PyExpr
deriving Repr

/-- Python top-level statement kinds relevant to a configuration module.
`conf.py` uses only `assign`; the remaining constructors model the other
statement kinds a Python module could contain (imports, function and class
definitions, control flow), so that their absence is expressible. -/
inductive Stmt where
  | assign : String → PyExpr → Stmt
  | importS : String → Stmt
  | defS : String → Stmt
  | classS : String → Stmt
  | ifS : Stmt
deriving Repr

/-- The module environment: names bound so far, most recent binding first. -/
abbrev Env := List (String × PyValue)

/-- Look a name up in the environment (first, i.e. most recent, match). -/
def lookupEnv : Env → String → Option PyValue
  | [], _ => none
  | (k, v) :: rest, n => if k = n then some v else lookupEnv rest n

/-- Python `str()` of a value, as far as `conf.py` needs it: strings format
as themselves, booleans as `True`/`False`, integers via decimal notation.
Container formatting is not modelled (no container is interpolated in the
source), so it is a failure here. -/
def pyStr : PyValue → Option String
  | .str s => some s
  | .bool true => some "True"
  | .bool false => some "False"
  | .int i => some (toString i)
  | .list _ => none
  | .dict _ => none

/-- Evaluate one f-string component in an environment. -/
def evalFPart (env : Env) : FPart → Option String
  | .lit s => some s
  | .var n => (lookupEnv env n).bind pyStr

/-- Evaluate an f-string: concatenate its evaluated components. -/
def evalFStr (env : Env) : List FPart → Option String
  | [] => some ""
  | p :: ps =>
      (evalFPart env p).bind fun s =>
        (evalFStr env ps).map fun t => s ++ t

/-- Evaluate a dictionary value position. -/
def evalDVal (env : Env) : DVal → Option PyValue
  | .lit v => some v
  | .name n => lookupEnv env n

/-- Evaluate the entries of a dictionary display, keeping their order. -/
def evalEntries (env : Env) : List (String × DVal) → Option (List (String × PyValue))
  | [] => some []
  | (k, d) :: rest =>
      (evalDVal env d).bind fun v =>
        (evalEntries env rest).map fun vs => (k, v) :: vs

/-- Evaluate an expression in an environment. -/
def evalExpr (env : Env) : PyExpr → Option PyValue
  | .lit v => some v
  | .name n => lookupEnv env n
  | .fstr ps => (evalFStr env ps).map PyValue.str
  | .dictE es => (evalEntries env es).map PyValue.dict

/-- Execute one statement.  Assignment evaluates the right-hand side and
binds the name (shadowing any earlier binding).  The other statement kinds
do not occur in `conf.py` and are not given semantics. -/
def execStmt (env : Env) : Stmt → Option Env
  | .assign n e => (evalExpr env e).map fun v => (n, v) :: env
  | _ => none

/-- Execute a statement sequence from an initial environment. -/
def execStmts (env : Env) : List Stmt → Option Env
  | [] => some env
  | s :: rest =>
      match execStmt env s with
      | some env2 => execStmts env2 rest
      | none => none

/-- The `_extra_navbar` triple-quoted string of `conf.py` (lines 24-38),
verbatim, including its leading and trailing newlines. -/
def extraNavbarText : String :=
  "\n<div class=\"sd-fs-4\">\n<!--\n<a href=\"https://fortran-lang.discourse.group/\" target=\"_blank\">\n    <i class=\"fab fa-discourse\"></i>\n</a>\n<a href=\"https://twitter.com/fortranlang\" target=\"_blank\">\n    <i class=\"fab fa-twitter\"></i>\n</a>\n<a href=\"https://github.com/fortran-lang\" target=\"_blank\">\n    <i class=\"fab fa-github\"></i>\n</a>\n-->\n</div>\n"

/-- The statement sequence of `src/pages/conf.py`, in source order. -/
def confStmts : List Stmt :=
  [ .assign "project" (.lit (.str "Fortran OOP Seminar Series")),
    .assign "author" (.lit (.str "Sebastian Ehlert")),
    .assign "copyright" (.fstr [.lit "2022 ", .var "author"]),
    .assign "extensions" (.lit (.list
      [ .str "myst_parser",
        .str "sphinx_design",
        .str "sphinx_copybutton",
        .str "sphinx.ext.intersphinx",
        .str "sphinx_comments" ])),
    .assign "myst_enable_extensions" (.lit (.list
      [ .str "colon_fence",
        .str "deflist",
        .str "substitution",
        .str "html_image" ])),
    .assign "html_theme" (.lit (.str "sphinx_book_theme")),
    .assign "html_title" (.lit (.str "Fortran OOP Seminar Series")),
    .assign "html_logo" (.lit (.str "_static/foopss-logo.svg")),
    .assign "html_favicon" (.lit (.str "_static/fortran-logo.svg")),
    .assign "_extra_navbar" (.lit (.str extraNavbarText)),
    .assign "html_theme_options" (.dictE
      [ ("repository_url", .lit (.str "https://github.com/awvwgk/foopss")),
        ("repository_branch", .lit (.str "main")),
        ("use_repository_button", .lit (.bool true)),
        ("use_edit_page_button", .lit (.bool true)),
        ("use_download_button", .lit (.bool false)),
        ("path_to_docs", .lit (.str "pages")),
        ("show_navbar_depth", .lit (.int 3)),
        ("logo_only", .lit (.bool true)),
        ("extra_navbar", .name "_extra_navbar") ]),
    .assign "html_sidebars" (.dictE
      [ ("**", .lit (.list [.str "sidebar-logo.html", .str "search-field.html"])) ]),
    .assign "html_css_files" (.lit (.list [.str "css/custom.css"])),
    .assign "html_static_path" (.lit (.list [.str "_static"])),
    .assign "templates_path" (.lit (.list [.str "_templates"])),
    .assign "master_doc" (.lit (.str "index")),
    .assign "comments_config" (.dictE []) ]

/-- Execute the whole configuration module from the empty environment. -/
def runConf : Option Env := execStmts [] confStmts

/-- The value a name is bound to after the module has run. -/
def confLookup (n : String) : Option PyValue :=
  match runConf with
  | some env => lookupEnv env n
  | none => none

/-- The value under key `k` of the `html_theme_options` dictionary. -/
def themeOption (k : String) : Option PyValue :=
  match confLookup "html_theme_options" with
  | some (.dict es) => lookupEnv es k
  | _ => none

/-- Length of the list a name is bound to (0 when not bound to a list). -/
def listLen (n : String) : Nat :=
  match confLookup n with
  | some (.list l) => l.length
  | _ => 0

/-- Whether a value is a scalar in the sense of the spec's data model for
theme options: a string, a boolean or an integer. -/
def isScalar : PyValue → Bool
  | .str _ => true
  | .bool _ => true
  | .int _ => true
  | .list _ => false
  | .dict _ => false

/-- Whether a value is a string, a dictionary or a list. -/
def isStrDictOrList : PyValue → Bool
  | .str _ => true
  | .dict _ => true
  | .list _ => true
  | .bool _ => false
  | .int _ => false

/-- Whether a statement is an assignment. -/
def isAssign : Stmt → Bool
  | .assign _ _ => true
  | _ => false

/-- Whether a statement assigns to the name `n`. -/
def assignsTo (n : String) : Stmt → Bool
  | .assign m _ => m == n
  | _ => false

/-- How many statements of the module assign to the name `n`. -/
def assignCount (n : String) : Nat :=
  (confStmts.filter (assignsTo n)).length

/-- Whether every top-level value bound by a successful run of the module
satisfies `p` (false when the run fails). -/
def allTopValues (p : PyValue → Bool) : Bool :=
  match runConf with
  | some env => env.all fun kv => p kv.2
  | none => false

/-- Whether every value of the `html_theme_options` dictionary is a scalar. -/
def themeOptionsAllScalar : Bool :=
  match confLookup "html_theme_options" with
  | some (.dict es) => es.all fun p => isScalar p.2
  | _ => false

/-- Whether `html_theme_options` has an entry under key `k`. -/
def hasThemeKey (k : String) : Bool :=
  (themeOption k).isSome

/-- The theme-option keys the spec singles out: repository links,
navigation depth, edit and download buttons, extra navbar HTML. -/
def requiredThemeKeys : List String :=
  [ "repository_url", "repository_branch", "use_repository_button",
    "show_navbar_depth", "use_edit_page_button", "use_download_button",
    "extra_navbar" ]

/-- Whether `needle` occurs at the start of `hay`. -/
def matchesAt (needle hay : List Char) : Bool :=
  match needle, hay with
  | [], _ => true
  | _ :: _, [] => false
  | c :: cs, d :: ds => c = d && matchesAt cs ds

/-- All start indices (counting from `i`) at which `needle` occurs in the
character list. -/
def occAux (needle : List Char) : List Char → Nat → List Nat
  | [], _ => []
  | c :: rest, i =>
      (if matchesAt needle (c :: rest) then [i] else []) ++ occAux needle rest (i + 1)

/-- All start indices at which the substring `needle` occurs in `hay`. -/
def occurrences (needle hay : String) : List Nat :=
  occAux needle.data hay.data 0

/-- The text of `src/pages/conf.py`, line by line (literal braces written
with character escapes). -/
def confLines : List String :=
  [ "project = \"Fortran OOP Seminar Series\"",
    "author = \"Sebastian Ehlert\"",
    "copyright = f\"2022 \x7bauthor\x7d\"",
    "",
    "extensions = [",
    "    \"myst_parser\",",
    "    \"sphinx_design\",",
    "    \"sphinx_copybutton\",",
    "    \"sphinx.ext.intersphinx\",",
    "    \"sphinx_comments\",",
    "]",
    "myst_enable_extensions = [",
    "    \"colon_fence\",",
    "    \"deflist\",",
    "    \"substitution\",",
    "    \"html_image\",",
    "]",
    "",
    "html_theme = \"sphinx_book_theme\"",
    "html_title = \"Fortran OOP Seminar Series\"",
    "html_logo = \"_static/foopss-logo.svg\"",
    "html_favicon = \"_static/fortran-logo.svg\"",
    "",
    "_extra_navbar = \"\"\"",
    "<div class=\"sd-fs-4\">",
    "<!--",
    "<a href=\"https://fortran-lang.discourse.group/\" target=\"_blank\">",
    "    <i class=\"fab fa-discourse\"></i>",
    "</a>",
    "<a href=\"https://twitter.com/fortranlang\" target=\"_blank\">",
    "    <i class=\"fab fa-twitter\"></i>",
    "</a>",
    "<a href=\"https://github.com/fortran-lang\" target=\"_blank\">",
    "    <i class=\"fab fa-github\"></i>",
    "</a>",
    "-->",
    "</div>",
    "\"\"\"",
    "",
    "html_theme_options = \x7b",
    "    \"repository_url\": \"https://github.com/awvwgk/foopss\",",
    "    \"repository_branch\": \"main\",",
    "    \"use_repository_button\": True,",
    "    \"use_edit_page_button\": True,",
    "    \"use_download_button\": False,",
    "    \"path_to_docs\": \"pages\",",
    "    \"show_navbar_depth\": 3,",
    "    \"logo_only\": True,",
    "    \"extra_navbar\": _extra_navbar,",
    "    #\"single_page\": True,",
    "\x7d",
    "",
    "html_sidebars = \x7b",
    "    \"**\": [\"sidebar-logo.html\", \"search-field.html\"],",
    "\x7d",
    "",
    "html_css_files = [",
    "    \"css/custom.css\",",
    "]",
    "html_static_path = [\"_static\"]",
    "templates_path = [\"_templates\"]",
    "",
    "master_doc = \"index\"",
    "",
    "comments_config = \x7b\x7d" ]

/-- C1: after running the module, `extensions` is bound to the ordered
five-element list of plugin identifier strings for markdown parsing, design
components, copy buttons, cross-project linking and inline comments. -/
theorem C1_extensions_value :
    confLookup "extensions" = some (PyValue.list
      [ .str "myst_parser", .str "sphinx_design", .str "sphinx_copybutton",
        .str "sphinx.ext.intersphinx", .str "sphinx_comments" ])
    ∧ listLen "extensions" = 5 :=
  ⟨rfl, rfl⟩

/-- C2: after running the module, `myst_enable_extensions` is bound to the
ordered four-element list of markdown-dialect feature identifiers and
nothing else. -/
theorem C2_myst_enable_extensions_value :
    confLookup "myst_enable_extensions" = some (PyValue.list
      [ .str "colon_fence", .str "deflist", .str "substitution",
        .str "html_image" ])
    ∧ listLen "myst_enable_extensions" = 4 :=
  ⟨rfl, rfl⟩

/-- C3: after running the module, `html_sidebars` is a dictionary whose only
key is the pattern \x22**\x22, mapped to the ordered two-element widget list
[sidebar-logo.html, search-field.html]. -/
theorem C3_html_sidebars_value :
    confLookup "html_sidebars" = some (PyValue.dict
      [ ("**", .list [.str "sidebar-logo.html", .str "search-field.html"]) ]) :=
  rfl

/-- C4: every value of the `html_theme_options` dictionary is a string, a
boolean or an integer, and the dictionary contains the repository-link,
navigation-depth, edit and download button, and extra-navbar keys. -/
theorem C4_theme_options_scalar_and_keys :
    themeOptionsAllScalar = true
    ∧ requiredThemeKeys.all hasThemeKey = true :=
  ⟨rfl, rfl⟩

/-- C5: after running the module, `comments_config` is bound to the empty
dictionary. -/
theorem C5_comments_config_empty :
    confLookup "comments_config" = some (PyValue.dict []) :=
  rfl

/-- C6: each of `project`, `author` and `copyright` is the target of exactly
one assignment of the module, every statement of the module is an
assignment (so nothing can rebind or mutate them later), and each is bound
to a plain string. -/
theorem C6_metadata_assigned_once :
    assignCount "project" = 1
    ∧ assignCount "author" = 1
    ∧ assignCount "copyright" = 1
    ∧ confStmts.all isAssign = true
    ∧ confLookup "project" = some (PyValue.str "Fortran OOP Seminar Series")
    ∧ confLookup "author" = some (PyValue.str "Sebastian Ehlert")
    ∧ confLookup "copyright" = some (PyValue.str "2022 Sebastian Ehlert") :=
  ⟨rfl, rfl, rfl, rfl, rfl, rfl, rfl⟩

/-- C7: the repository's single file is 65 lines long, every statement of
the module is a key-value assignment (no imports, function or class
definitions, or control flow), and every assigned top-level value is a
string, a dictionary or a list. -/
theorem C7_only_assignments_65_lines :
    confLines.length = 65
    ∧ confStmts.all isAssign = true
    ∧ allTopValues isStrDictOrList = true :=
  ⟨rfl, rfl, rfl⟩

/-- C8: the third statement of the module assigns `copyright` an f-string
built from the literal "2022 " and the variable `author`, so the final
value of `copyright` is the concatenation of "2022 " with the value of
`author`, i.e. "2022 Sebastian Ehlert". -/
theorem C8_copyright_derived_from_author :
    confStmts[2]? = some (Stmt.assign "copyright"
      (PyExpr.fstr [FPart.lit "2022 ", FPart.var "author"]))
    ∧ confLookup "author" = some (PyValue.str "Sebastian Ehlert")
    ∧ confLookup "copyright" = some (PyValue.str ("2022 " ++ "Sebastian Ehlert"))
    ∧ confLookup "copyright" = some (PyValue.str "2022 Sebastian Ehlert") :=
  ⟨rfl, rfl, rfl, rfl⟩

/-- C9: after running the module, `html_title` and `project` are bound to
equal values, both the string "Fortran OOP Seminar Series". -/
theorem C9_html_title_equals_project :
    confLookup "html_title" = confLookup "project"
    ∧ confLookup "html_title" = some (PyValue.str "Fortran OOP Seminar Series") :=
  ⟨rfl, rfl⟩

set_option maxRecDepth 40000 in
/-- C10: the extra-navbar HTML stored under html_theme_options/extra_navbar
is exactly `extraNavbarText`; that string contains exactly one HTML comment
opener (index 23) and one closer (index 332), and every occurrence of
anchor markup (three opening and three closing anchor tags) lies strictly
inside that single comment, so the rendered navbar gets an empty div with
no active links. -/
theorem C10_navbar_links_inside_comment :
    themeOption "extra_navbar" = some (PyValue.str extraNavbarText)
    ∧ occurrences "<!--" extraNavbarText = [23]
    ∧ occurrences "-->" extraNavbarText = [332]
    ∧ occurrences "<a" extraNavbarText = [28, 135, 234]
    ∧ occurrences "</a>" extraNavbarText = [130, 229, 327]
    ∧ ((occurrences "<a" extraNavbarText ++ occurrences "</a>" extraNavbarText).all
        fun i => decide (23 + 4 ≤ i) && decide (i + 4 ≤ 332)) = true :=
  ⟨rfl, rfl, rfl, rfl, rfl, rfl⟩

end Foopss
